import Mathlib

/-!
Shallow embedding of the Flow-On-Arc core contracts and proofs about them.

The embedding covers:
* `ILP` — the `ImprovedLendingPool` contract (collateral/debt ledger,
  USD valuation, borrow/withdraw gating);
* `FLP` — the `FlowLendingPool` contract (per-query recomputed account
  data, liquidation-threshold-weighted health factor);
* `SR` — the `SwapRouter` contract (constant-product AMM with 0.3% fee,
  liquidity shares, multi-hop swaps).

Conventions of the embedding:
* `uint256` is modelled as `Nat`.  Solidity 0.8 checked arithmetic reverts
  on underflow; every subtraction in the source is therefore preceded by an
  explicit guard returning an error.  (Additions cannot overflow on `Nat`;
  the source's own defensive post-addition `require` checks are transcribed
  and are provably always satisfied.)
* Addresses and token identifiers are `Nat`; `address(0)` is `0`.
* Solidity mappings are total functions with the zero-initialised default.
* Calls into the external ERC20 token are modelled by a `TokenEnv` giving
  the boolean result of each `transfer` / `transferFrom`.  Where the source
  ignores the returned boolean, the embedding does too.
* Each operation returns `Except Err (State × List ExtCall)`: the final
  state plus the trace of external token calls it performed.  Every traced
  call records the engine state at the moment the call is made, which makes
  the mutate-before-transfer / transfer-before-mutate ordering of the
  source observable.  An `Except.error` result models a reverted
  transaction (no state change, no external effects).
-/

/-- Boolean results of the external ERC20 calls: `transferOk token to amount`
and `transferFromOk token from amount`. -/
structure TokenEnv where
  transferOk : Nat → Nat → Nat → Bool
  transferFromOk : Nat → Nat → Nat → Bool

/-- Which external token entry point a traced call went through. -/
inductive CallKind where
  | transfer
  | transferFrom
  deriving DecidableEq

/-- Whether an `Except` result is a success. -/
def isOkE {ε α : Type} : Except ε α → Bool
  | .ok _ => true
  | .error _ => false

/-- Project the success value out of an `Except`, with a default. -/
def okD {ε α : Type} (r : Except ε α) (d : α) : α :=
  match r with
  | .ok a => a
  | .error _ => d

namespace ILP

/-- `ImprovedLendingPool.UserAccount` (part_001 lines 77-86). -/
structure UserAccount where
  collateral : Nat → Nat
  debt : Nat → Nat
  totalCollateralUSD : Nat
  totalDebtUSD : Nat

/-- `ImprovedLendingPool.ReserveData` (part_001 lines 89-106). -/
structure ReserveData where
  ltv : Nat
  liquidationThreshold : Nat
  liquidationBonus : Nat
  availableLiquidity : Nat
  totalSupplied : Nat
  totalBorrowed : Nat
  priceUSD : Nat
  isActive : Bool
  isFrozen : Bool

/-- `ImprovedLendingPool.TokenConfiguration` (part_001 lines 109-112). -/
structure TokenConfiguration where
  decimals : Nat
  symbol : String

/-- Storage of `ImprovedLendingPool`. -/
structure State where
  owner : Nat
  userAccounts : Nat → UserAccount
  reserves : Nat → ReserveData
  tokenConfigurations : Nat → TokenConfiguration
  supportedTokens : List Nat

/-- Revert reasons of `ImprovedLendingPool`, one per `require` message. -/
inductive Err where
  | invalidToken
  | notSupported
  | frozen
  | zeroAmount
  | insufficientCollateral
  | underflow
  | wouldLiquidate
  | insufficientLiquidity
  | overflow
  | noCollateral
  | exceedsDebt
  | notOwner
  | alreadyInit
  | invalidLtv
  | invalidLiquidationThreshold
  | invalidBonus
  | invalidPrice
  | invalidDecimals
  deriving DecidableEq

/-- A traced external ERC20 call, with the engine state at call time. -/
structure ExtCall where
  kind : CallKind
  token : Nat
  counterparty : Nat
  amount : Nat
  stateAt : State

/-- `PERCENTAGE_FACTOR = 1e18` (part_001 line 123). -/
def PERCENTAGE_FACTOR : Nat := 10 ^ 18

/-- `HEALTH_FACTOR_LIQUIDATION_THRESHOLD = 1e18` (part_001 line 124). -/
def HEALTH_FACTOR_LIQUIDATION_THRESHOLD : Nat := 10 ^ 18

/-- `type(uint256).max`. -/
def UINT256_MAX : Nat := 2 ^ 256 - 1

/-- Point update of the `userAccounts` mapping. -/
def updUser (s : State) (u : Nat) (f : UserAccount → UserAccount) : State :=
  { s with userAccounts := fun v => if v = u then f (s.userAccounts v) else s.userAccounts v }

/-- Point update of the `reserves` mapping. -/
def updReserve (s : State) (t : Nat) (f : ReserveData → ReserveData) : State :=
  { s with reserves := fun v => if v = t then f (s.reserves v) else s.reserves v }

/-- `_getTokenValueUSD` (part_001 lines 438-456). -/
def getTokenValueUSD (s : State) (token amount : Nat) : Nat :=
  let decimals0 := (s.tokenConfigurations token).decimals
  let decimals := if decimals0 > 18 then 18 else decimals0
  let scalingFactor := 10 ^ (18 - decimals)
  let normalizedAmount := amount * scalingFactor
  if (s.reserves token).priceUSD = 0 ∨ amount = 0 then 0
  else normalizedAmount * (s.reserves token).priceUSD / (10 ^ 18)

/-- `_calculateAvailableBorrowsUSD` (part_001 lines 411-427): a flat 75% LTV
is applied to the stored collateral USD total, then existing debt is
subtracted (clamped at zero). -/
def calculateAvailableBorrowsUSD (s : State) (userAddress : Nat) : Nat :=
  let user := s.userAccounts userAddress
  let ltv := 75 * 10 ^ 16
  let availableBorrowsUSD := user.totalCollateralUSD * ltv / PERCENTAGE_FACTOR
  if availableBorrowsUSD < user.totalDebtUSD then 0
  else availableBorrowsUSD - user.totalDebtUSD

/-- `_calculateHealthFactor` (part_001 lines 430-435). -/
def calculateHealthFactor (collateralUSD debtUSD : Nat) : Nat :=
  if debtUSD = 0 then UINT256_MAX
  else collateralUSD * PERCENTAGE_FACTOR / debtUSD

/-- State after `supplyCollateral`'s first updates (part_001 lines
244-248): the user's collateral and the reserve totals increased. -/
def supplyS2 (sender token amount : Nat) (s : State) : State :=
  updReserve
    (updUser s sender fun u =>
      { u with collateral := fun t => if t = token then u.collateral t + amount else u.collateral t })
    token fun r =>
      { r with availableLiquidity := r.availableLiquidity + amount
               totalSupplied := r.totalSupplied + amount }

/-- Final state of `supplyCollateral` (part_001 lines 255-256): the user's
`totalCollateralUSD` increased by `_getTokenValueUSD` of the amount. -/
def supplyS3 (sender token amount : Nat) (s : State) : State :=
  updUser (supplyS2 sender token amount s) sender fun u =>
    { u with totalCollateralUSD :=
        u.totalCollateralUSD + getTokenValueUSD (supplyS2 sender token amount s) token amount }

/-- `supplyCollateral` (part_001 lines 235-263).  The `tokenSupported`
modifier is the first three guards.  Note that the source does NOT check
the boolean returned by `transferFrom` (line 241): the call is recorded in
the trace but its result is ignored, as in the source. -/
def supplyCollateral (env : TokenEnv) (sender token amount : Nat) (s : State) :
    Except Err (State × List ExtCall) :=
  if token = 0 then .error .invalidToken
  else if (s.reserves token).isActive = false then .error .notSupported
  else if (s.reserves token).isFrozen then .error .frozen
  else if amount = 0 then .error .zeroAmount
  else if ((supplyS2 sender token amount s).reserves token).availableLiquidity < amount then
    .error .overflow
  else if ((supplyS2 sender token amount s).reserves token).totalSupplied < amount then
    .error .overflow
  else if ((supplyS3 sender token amount s).userAccounts sender).totalCollateralUSD <
      getTokenValueUSD (supplyS2 sender token amount s) token amount then .error .overflow
  else .ok (supplyS3 sender token amount s, [⟨.transferFrom, token, sender, amount, s⟩])

/-- State after `withdrawCollateral`'s collateral decrement (part_001 line
280); reserves are untouched at this point. -/
def withdrawS1 (sender token amount : Nat) (s : State) : State :=
  updUser s sender fun u =>
    { u with collateral := fun t => if t = token then u.collateral t - amount else u.collateral t }

/-- State after the reserve decrements of `withdrawCollateral` (part_001
lines 283-284). -/
def withdrawS2 (sender token amount : Nat) (s : State) : State :=
  updReserve (withdrawS1 sender token amount s) token fun r =>
    { r with availableLiquidity := r.availableLiquidity - amount
             totalSupplied := r.totalSupplied - amount }

/-- Final state of `withdrawCollateral` (part_001 lines 287-288): the
user's `totalCollateralUSD` decreased by `_getTokenValueUSD` recomputed on
the already-decremented state (the price and decimals it reads are
unchanged by the decrements). -/
def withdrawS3 (sender token amount : Nat) (s : State) : State :=
  updUser (withdrawS2 sender token amount s) sender fun u =>
    { u with totalCollateralUSD :=
        u.totalCollateralUSD - getTokenValueUSD (withdrawS2 sender token amount s) token amount }

/-- `withdrawCollateral` (part_001 lines 266-292) with `_validateWithdrawal`
(lines 387-408) inlined at its call site.  The external `transfer` (line
277, boolean result unchecked) happens BEFORE the bookkeeping decrements
(lines 280-288), so the traced call records the pre-decrement state `s`. -/
def withdrawCollateral (env : TokenEnv) (sender token amount : Nat) (s : State) :
    Except Err (State × List ExtCall) :=
  if token = 0 then .error .invalidToken
  else if (s.reserves token).isActive = false then .error .notSupported
  else if (s.reserves token).isFrozen then .error .frozen
  else if amount = 0 then .error .zeroAmount
  else if (s.userAccounts sender).collateral token < amount then .error .insufficientCollateral
  else if (s.userAccounts sender).totalCollateralUSD < getTokenValueUSD s token amount then
    .error .underflow
  else if 0 < (s.userAccounts sender).totalDebtUSD ∧
      calculateHealthFactor
          ((s.userAccounts sender).totalCollateralUSD - getTokenValueUSD s token amount)
          (s.userAccounts sender).totalDebtUSD <
        HEALTH_FACTOR_LIQUIDATION_THRESHOLD then .error .wouldLiquidate
  else if ((withdrawS1 sender token amount s).reserves token).availableLiquidity < amount then
    .error .underflow
  else if ((withdrawS1 sender token amount s).reserves token).totalSupplied < amount then
    .error .underflow
  else if ((withdrawS2 sender token amount s).userAccounts sender).totalCollateralUSD <
      getTokenValueUSD (withdrawS2 sender token amount s) token amount then .error .underflow
  else .ok (withdrawS3 sender token amount s, [⟨.transfer, token, sender, amount, s⟩])

/-- State after `borrow`'s debt updates (part_001 lines 308-309). -/
def borrowS1 (sender token amount : Nat) (s : State) : State :=
  updUser s sender fun u =>
    { u with debt := fun t => if t = token then u.debt t + amount else u.debt t
             totalDebtUSD := u.totalDebtUSD + getTokenValueUSD s token amount }

/-- Final state of `borrow` (part_001 lines 316-317): available liquidity
decreased, total borrowed increased. -/
def borrowS2 (sender token amount : Nat) (s : State) : State :=
  updReserve (borrowS1 sender token amount s) token fun r =>
    { r with availableLiquidity := r.availableLiquidity - amount
             totalBorrowed := r.totalBorrowed + amount }

/-- `borrow` (part_001 lines 295-327) with `_validateBorrow` (lines 353-384)
inlined at its call site.  The external `transfer` to the borrower (line
305, boolean result unchecked) happens BEFORE the debt and reserve updates
(lines 308-320), so the traced call records the pre-update state `s`. -/
def borrow (env : TokenEnv) (sender token amount : Nat) (s : State) :
    Except Err (State × List ExtCall) :=
  if token = 0 then .error .invalidToken
  else if (s.reserves token).isActive = false then .error .notSupported
  else if (s.reserves token).isFrozen then .error .frozen
  else if amount = 0 then .error .zeroAmount
  else if (s.reserves token).availableLiquidity < amount then .error .insufficientLiquidity
  else if (s.userAccounts sender).totalDebtUSD + getTokenValueUSD s token amount <
      (s.userAccounts sender).totalDebtUSD then .error .overflow
  else if (s.userAccounts sender).totalCollateralUSD = 0 then .error .noCollateral
  else if calculateAvailableBorrowsUSD s sender <
      (s.userAccounts sender).totalDebtUSD + getTokenValueUSD s token amount then
    .error .insufficientCollateral
  else if ((borrowS1 sender token amount s).userAccounts sender).debt token < amount then
    .error .overflow
  else if ((borrowS1 sender token amount s).userAccounts sender).totalDebtUSD <
      getTokenValueUSD s token amount then .error .overflow
  else if ((borrowS1 sender token amount s).reserves token).availableLiquidity < amount then
    .error .underflow
  else if ((borrowS2 sender token amount s).reserves token).totalBorrowed < amount then
    .error .overflow
  else .ok (borrowS2 sender token amount s, [⟨.transfer, token, sender, amount, s⟩])

/-- State after `repay`'s debt updates (part_001 lines 341-342). -/
def repayS1 (sender token amount : Nat) (s : State) : State :=
  updUser s sender fun u =>
    { u with debt := fun t => if t = token then u.debt t - amount else u.debt t
             totalDebtUSD := u.totalDebtUSD - getTokenValueUSD s token amount }

/-- Final state of `repay` (part_001 lines 345-346). -/
def repayS2 (sender token amount : Nat) (s : State) : State :=
  updReserve (repayS1 sender token amount s) token fun r =>
    { r with availableLiquidity := r.availableLiquidity + amount
             totalBorrowed := r.totalBorrowed - amount }

/-- `repay` (part_001 lines 330-350).  The boolean returned by
`transferFrom` (line 337) is again unchecked by the source. -/
def repay (env : TokenEnv) (sender token amount : Nat) (s : State) :
    Except Err (State × List ExtCall) :=
  if token = 0 then .error .invalidToken
  else if (s.reserves token).isActive = false then .error .notSupported
  else if (s.reserves token).isFrozen then .error .frozen
  else if amount = 0 then .error .zeroAmount
  else if (s.userAccounts sender).debt token < amount then .error .exceedsDebt
  else if (s.userAccounts sender).totalDebtUSD < getTokenValueUSD s token amount then
    .error .underflow
  else if ((repayS1 sender token amount s).reserves token).totalBorrowed < amount then
    .error .underflow
  else .ok (repayS2 sender token amount s, [⟨.transferFrom, token, sender, amount, s⟩])

/-- `initReserve` (part_001 lines 189-221). -/
def initReserve (sender token ltv liquidationThreshold liquidationBonus priceUSD
    decimals : Nat) (symbol : String) (s : State) : Except Err (State × List ExtCall) :=
  if sender ≠ s.owner then .error .notOwner
  else if token = 0 then .error .invalidToken
  else if (s.reserves token).isActive then .error .alreadyInit
  else if PERCENTAGE_FACTOR < ltv then .error .invalidLtv
  else if PERCENTAGE_FACTOR < liquidationThreshold then .error .invalidLiquidationThreshold
  else if PERCENTAGE_FACTOR < liquidationBonus then .error .invalidBonus
  else if priceUSD = 0 then .error .invalidPrice
  else if 18 < decimals then .error .invalidDecimals
  else
    let s1 := updReserve s token fun r =>
      { r with ltv := ltv
               liquidationThreshold := liquidationThreshold
               liquidationBonus := liquidationBonus
               priceUSD := priceUSD
               isActive := true
               isFrozen := false }
    let safeDecimals := if decimals ≤ 18 then decimals else 18
    let s2 := { s1 with
      tokenConfigurations := fun t =>
        if t = token then ⟨safeDecimals, symbol⟩ else s1.tokenConfigurations t
      supportedTokens := s1.supportedTokens ++ [token] }
    .ok (s2, [])

/-- The per-reserve accounting invariant of the spec:
`availableLiquidity = totalSupplied − totalBorrowed` and
`totalBorrowed ≤ totalSupplied`. -/
def ReserveInv (r : ReserveData) : Prop :=
  r.totalBorrowed ≤ r.totalSupplied ∧
  r.availableLiquidity = r.totalSupplied - r.totalBorrowed

/-- The invariant for every asset reserve. -/
def InvAll (s : State) : Prop := ∀ t, ReserveInv (s.reserves t)

end ILP

namespace FLP

/-- `FlowLendingPool.ReserveData` (part_000 lines 131-136). -/
structure ReserveData where
  totalSupplied : Nat
  totalBorrowed : Nat
  ltv : Nat
  priceUSD : Nat

/-- Storage of `FlowLendingPool`.  `tokenDecimals` models the external
`IERC20(token).decimals()` query the contract performs. -/
structure State where
  reserves : Nat → ReserveData
  userCollateral : Nat → Nat → Nat
  userDebt : Nat → Nat → Nat
  tokens : List Nat
  tokenDecimals : Nat → Nat

/-- Revert reasons of `FlowLendingPool`. -/
inductive Err where
  | zeroAmount
  | insufficientCollateral
  | wouldLiquidate
  | transferFailed
  | underflow
  | exceedsDebt
  | insufficientBorrows
  deriving DecidableEq

/-- `type(uint256).max`. -/
def UINT256_MAX : Nat := 2 ^ 256 - 1

/-- USD value of one user's collateral in one token, as computed inside the
`getUserAccountData` loop (part_000 line 228). -/
def collateralValueUSD (s : State) (user token : Nat) : Nat :=
  s.userCollateral user token * (s.reserves token).priceUSD / 10 ^ s.tokenDecimals token

/-- USD value of one user's debt in one token (part_000 line 236). -/
def debtValueUSD (s : State) (user token : Nat) : Nat :=
  s.userDebt user token * (s.reserves token).priceUSD / 10 ^ s.tokenDecimals token

/-- The accumulation loop of `getUserAccountData` (part_000 lines 220-239):
returns `(totalCollateralUSD, totalLiquidationThresholdUSD, totalDebtUSD)`. -/
def accountTotals (s : State) (user : Nat) : Nat × Nat × Nat :=
  s.tokens.foldl
    (fun acc token =>
      let collateral := s.userCollateral user token
      let acc1 :=
        if 0 < collateral then
          let collateralUSD := collateralValueUSD s user token
          (acc.1 + collateralUSD, acc.2.1 + collateralUSD * (s.reserves token).ltv / 10000, acc.2.2)
        else acc
      let debt := s.userDebt user token
      if 0 < debt then (acc1.1, acc1.2.1, acc1.2.2 + debtValueUSD s user token) else acc1)
    (0, 0, 0)

/-- The liquidation-threshold-weighted collateral USD total the health
factor is computed from. -/
def liquidationWeightedCollateralUSD (s : State) (user : Nat) : Nat :=
  (accountTotals s user).2.1

/-- Result record of `getUserAccountData`. -/
structure AccountData where
  totalCollateralUSD : Nat
  totalDebtUSD : Nat
  availableBorrowsUSD : Nat
  healthFactor : Nat

/-- `getUserAccountData` (part_000 lines 212-252). -/
def getUserAccountData (s : State) (user : Nat) : AccountData :=
  let totals := accountTotals s user
  { totalCollateralUSD := totals.1
    totalDebtUSD := totals.2.2
    availableBorrowsUSD := if totals.2.2 < totals.2.1 then totals.2.1 - totals.2.2 else 0
    healthFactor :=
      if 0 < totals.2.2 then totals.2.1 * 10 ^ 18 / totals.2.2 else UINT256_MAX }

/-- The state after the two decrements `withdrawCollateral` performs before
its health check (part_000 lines 175-176). -/
def decrementCollateral (sender token amount : Nat) (s : State) : State :=
  { s with
    userCollateral := fun u t =>
      if u = sender ∧ t = token then s.userCollateral u t - amount else s.userCollateral u t
    reserves := fun t =>
      if t = token then
        { s.reserves t with totalSupplied := (s.reserves t).totalSupplied - amount }
      else s.reserves t }

/-- `FlowLendingPool.withdrawCollateral` (part_000 lines 172-185): decrement
collateral and `totalSupplied` first, then recompute the account data and
require `totalDebtUSD == 0 || healthFactor >= 1e18`, then transfer out
(checked). -/
def withdrawCollateral (env : TokenEnv) (sender token amount : Nat) (s : State) :
    Except Err State :=
  if s.userCollateral sender token < amount then .error .insufficientCollateral
  else if (s.reserves token).totalSupplied < amount then .error .underflow
  else
    let s1 := decrementCollateral sender token amount s
    let data := getUserAccountData s1 sender
    if data.totalDebtUSD = 0 ∨ 10 ^ 18 ≤ data.healthFactor then
      if env.transferOk token sender amount then .ok s1 else .error .transferFailed
    else .error .wouldLiquidate

end FLP

namespace SR

/-- `SwapRouter.Pool` (part_002 lines 19-25). -/
structure Pool where
  tokenA : Nat
  tokenB : Nat
  reserveA : Nat
  reserveB : Nat
  exists_ : Bool

/-- Storage of `SwapRouter`.  Pool ids are the canonically ordered token
pair (the source hashes this pair; the pair itself is an injective stand-in
for the hash).  `self` is `address(this)`, the recipient of intermediate
hop outputs. -/
structure State where
  owner : Nat
  self : Nat
  pools : Nat × Nat → Pool
  userLiquidity : Nat × Nat → Nat → Nat
  totalLiquidity : Nat × Nat → Nat

/-- Revert reasons of `SwapRouter`. -/
inductive Err where
  | notOwner
  | identicalTokens
  | poolAlreadyExists
  | noPool
  | transferFailed
  | insufficientLiquidity
  | insufficientInput
  | invalidPath
  | expired
  | insufficientOutput
  | divByZero
  | underflow
  deriving DecidableEq

/-- A traced external ERC20 call, with the router state at call time. -/
structure ExtCall where
  kind : CallKind
  token : Nat
  counterparty : Nat
  amount : Nat
  stateAt : State

/-- `FEE_PERCENT = 3` (part_002 line 16). -/
def FEE_PERCENT : Nat := 3

/-- `FEE_DENOMINATOR = 1000` (part_002 line 17). -/
def FEE_DENOMINATOR : Nat := 1000

/-- `getPoolId` (part_002 lines 53-57): canonical ordering of the pair. -/
def getPoolId (tokenA tokenB : Nat) : Nat × Nat :=
  if tokenA < tokenB then (tokenA, tokenB) else (tokenB, tokenA)

/-- `createPool` (part_002 lines 62-78), gated by `onlyOwner`. -/
def createPool (sender tokenA tokenB : Nat) (s : State) :
    Except Err (State × List ExtCall) :=
  if sender ≠ s.owner then .error .notOwner
  else if tokenA = tokenB then .error .identicalTokens
  else
    let poolId := getPoolId tokenA tokenB
    if (s.pools poolId).exists_ then .error .poolAlreadyExists
    else
      let token0 := if tokenA < tokenB then tokenA else tokenB
      let token1 := if tokenA < tokenB then tokenB else tokenA
      .ok ({ s with pools := fun p =>
        if p = poolId then ⟨token0, token1, 0, 0, true⟩ else s.pools p }, [])

/-- The Babylonian square root of the source (part_002 lines 260-271),
written with an explicit iteration bound: the loop variable `z` strictly
decreases on every iteration, so the initial `z` bounds the number of
iterations and the bound is never exhausted when `z ≤ fuel`. -/
def sqrtLoop (y : Nat) : Nat → Nat → Nat → Nat
  | 0, _, z => z
  | fuel + 1, x, z => if x < z then sqrtLoop y fuel ((y / x + x) / 2) x else z

/-- `sqrt` (part_002 lines 260-271): for `y > 3` run the Babylonian loop
from `z = y`, `x = y/2 + 1`; for `1 ≤ y ≤ 3` return 1; for `y = 0`
return 0. -/
def sqrt (y : Nat) : Nat :=
  if 3 < y then sqrtLoop y y (y / 2 + 1) y
  else if y ≠ 0 then 1 else 0

/-- `addLiquidity` (part_002 lines 83-119): pull both tokens from the
caller (checked), mint `sqrt(amountA*amountB)` shares on a fresh pool or
the minimum proportional contribution otherwise, and update reserves and
shares.  Division by a zero reserve reverts on chain and is an error
here. -/
def addLiquidity (env : TokenEnv) (sender tokenA tokenB amountA amountB : Nat)
    (s : State) : Except Err (State × List ExtCall) :=
  let poolId := getPoolId tokenA tokenB
  let pool := s.pools poolId
  if pool.exists_ = false then .error .noPool
  else if env.transferFromOk pool.tokenA sender amountA = false then .error .transferFailed
  else if env.transferFromOk pool.tokenB sender amountB = false then .error .transferFailed
  else if s.totalLiquidity poolId ≠ 0 ∧ (pool.reserveA = 0 ∨ pool.reserveB = 0) then
    .error .divByZero
  else
    let liquidity :=
      if s.totalLiquidity poolId = 0 then sqrt (amountA * amountB)
      else min (amountA * s.totalLiquidity poolId / pool.reserveA)
               (amountB * s.totalLiquidity poolId / pool.reserveB)
    if liquidity = 0 then .error .insufficientLiquidity
    else
      let s1 := { s with
        pools := fun p =>
          if p = poolId then
            { pool with reserveA := pool.reserveA + amountA, reserveB := pool.reserveB + amountB }
          else s.pools p
        userLiquidity := fun p u =>
          if p = poolId ∧ u = sender then s.userLiquidity p u + liquidity
          else s.userLiquidity p u
        totalLiquidity := fun p =>
          if p = poolId then s.totalLiquidity p + liquidity else s.totalLiquidity p }
      .ok (s1, [⟨.transferFrom, pool.tokenA, sender, amountA, s⟩,
                ⟨.transferFrom, pool.tokenB, sender, amountB, s⟩])

/-- `removeLiquidity` (part_002 lines 124-148): compute the proportional
amounts, apply ALL bookkeeping decrements (shares, total shares, both
reserves), and only then make the two outbound transfers (checked).  The
traced calls therefore record the fully updated state `s1`. -/
def removeLiquidity (env : TokenEnv) (sender tokenA tokenB liquidity : Nat)
    (s : State) : Except Err (State × List ExtCall) :=
  let poolId := getPoolId tokenA tokenB
  let pool := s.pools poolId
  if pool.exists_ = false then .error .noPool
  else if s.userLiquidity poolId sender < liquidity then .error .insufficientLiquidity
  else if s.totalLiquidity poolId = 0 then .error .divByZero
  else
    let amountA := liquidity * pool.reserveA / s.totalLiquidity poolId
    let amountB := liquidity * pool.reserveB / s.totalLiquidity poolId
    if s.totalLiquidity poolId < liquidity then .error .underflow
    else if pool.reserveA < amountA then .error .underflow
    else if pool.reserveB < amountB then .error .underflow
    else
      let s1 := { s with
        userLiquidity := fun p u =>
          if p = poolId ∧ u = sender then s.userLiquidity p u - liquidity
          else s.userLiquidity p u
        totalLiquidity := fun p =>
          if p = poolId then s.totalLiquidity p - liquidity else s.totalLiquidity p
        pools := fun p =>
          if p = poolId then
            { pool with reserveA := pool.reserveA - amountA, reserveB := pool.reserveB - amountB }
          else s.pools p }
      if env.transferOk pool.tokenA sender amountA = false then .error .transferFailed
      else if env.transferOk pool.tokenB sender amountB = false then .error .transferFailed
      else .ok (s1, [⟨.transfer, pool.tokenA, sender, amountA, s1⟩,
                     ⟨.transfer, pool.tokenB, sender, amountB, s1⟩])

/-- `getAmountOut` (part_002 lines 242-255): constant-product output with
the 0.3% fee applied to the input. -/
def getAmountOut (amountIn reserveIn reserveOut : Nat) : Except Err Nat :=
  if amountIn = 0 then .error .insufficientInput
  else if reserveIn = 0 ∨ reserveOut = 0 then .error .insufficientLiquidity
  else
    let amountInWithFee := amountIn * (FEE_DENOMINATOR - FEE_PERCENT)
    let numerator := amountInWithFee * reserveOut
    let denominator := reserveIn * FEE_DENOMINATOR + amountInWithFee
    .ok (numerator / denominator)

/-- The hop loop of `getAmountsOut` (part_002 lines 158-175). -/
def amountsGo (s : State) : Nat → List Nat → Except Err (List Nat)
  | amountIn, t1 :: t2 :: rest =>
    let pool := s.pools (getPoolId t1 t2)
    if pool.exists_ = false then .error .noPool
    else
      let reserveIn := if t1 = pool.tokenA then pool.reserveA else pool.reserveB
      let reserveOut := if t1 = pool.tokenA then pool.reserveB else pool.reserveA
      match getAmountOut amountIn reserveIn reserveOut with
      | .error e => .error e
      | .ok amountOut =>
        match amountsGo s amountOut (t2 :: rest) with
        | .error e => .error e
        | .ok tail => .ok (amountIn :: tail)
  | amountIn, _ => .ok [amountIn]

/-- `getAmountsOut` (part_002 lines 153-178). -/
def getAmountsOut (s : State) (amountIn : Nat) (path : List Nat) :
    Except Err (List Nat) :=
  if path.length < 2 then .error .invalidPath
  else amountsGo s amountIn path

/-- The execution loop of `swapExactTokensForTokens` (part_002 lines
203-232): per hop, add the input amount to the in-side reserve, subtract
the precomputed output from the out-side reserve (checked subtraction),
then transfer the output to the next recipient (the caller-specified `to`
on the last hop, the router itself in between). -/
def swapGo (env : TokenEnv) (toAddr : Nat) :
    State → List Nat → List Nat → Except Err (State × List ExtCall)
  | s, t1 :: t2 :: rest, a1 :: a2 :: arest =>
    let poolId := getPoolId t1 t2
    let pool := s.pools poolId
    if (if t1 = pool.tokenA then pool.reserveB else pool.reserveA) < a2 then .error .underflow
    else
      let pool1 :=
        if t1 = pool.tokenA then
          { pool with reserveA := pool.reserveA + a1, reserveB := pool.reserveB - a2 }
        else
          { pool with reserveB := pool.reserveB + a1, reserveA := pool.reserveA - a2 }
      let s1 := { s with pools := fun p => if p = poolId then pool1 else s.pools p }
      let recipient := if rest = [] then toAddr else s.self
      if env.transferOk t2 recipient a2 = false then .error .transferFailed
      else
        match swapGo env toAddr s1 (t2 :: rest) (a2 :: arest) with
        | .error e => .error e
        | .ok (s2, calls) => .ok (s2, ⟨.transfer, t2, recipient, a2, s1⟩ :: calls)
  | s, _, _ => .ok (s, [])

/-- `swapExactTokensForTokens` (part_002 lines 183-237). -/
def swapExactTokensForTokens (env : TokenEnv) (sender amountIn amountOutMin : Nat)
    (path : List Nat) (toAddr deadline nowTs : Nat) (s : State) :
    Except Err (State × List ExtCall) :=
  if deadline < nowTs then .error .expired
  else if path.length < 2 then .error .invalidPath
  else
    match getAmountsOut s amountIn path with
    | .error e => .error e
    | .ok amounts =>
      if amounts.getLastD 0 < amountOutMin then .error .insufficientOutput
      else if env.transferFromOk (path.headD 0) sender (amounts.headD 0) = false then
        .error .transferFailed
      else
        match swapGo env toAddr s path amounts with
        | .error e => .error e
        | .ok (s1, calls) =>
          .ok (s1, ⟨.transferFrom, path.headD 0, sender, amounts.headD 0, s⟩ :: calls)

end SR

/-! ### Concrete fixtures used to evaluate the operations on explicit inputs -/

/-- Token environment in which every external transfer succeeds. -/
def envAll : TokenEnv := ⟨fun _ _ _ => true, fun _ _ _ => true⟩

/-- Token environment in which every external transfer returns `false`. -/
def envFalse : TokenEnv := ⟨fun _ _ _ => false, fun _ _ _ => false⟩

/-- The zero-initialised user account (Solidity mapping default). -/
def zeroUser : ILP.UserAccount := ⟨fun _ => 0, fun _ => 0, 0, 0⟩

/-- The zero-initialised lending reserve (Solidity mapping default). -/
def zeroReserveILP : ILP.ReserveData := ⟨0, 0, 0, 0, 0, 0, 0, false, false⟩

/-- The zero-initialised pool slot (Solidity mapping default). -/
def zeroPool : SR.Pool := ⟨0, 0, 0, 0, false⟩

/-- Lending state: user 2 holds 100 units of token 1 as collateral and owes
50 units; token 1 is active at price 1 wei-USD with 18 decimals; the
reserve has 100 supplied, 50 borrowed, 50 available. -/
def sC1 : ILP.State :=
  { owner := 0
    userAccounts := fun u =>
      if u = 2 then
        { collateral := fun t => if t = 1 then 100 else 0
          debt := fun t => if t = 1 then 50 else 0
          totalCollateralUSD := 100 * 10 ^ 18
          totalDebtUSD := 0 }
      else zeroUser
    reserves := fun t =>
      if t = 1 then
        { ltv := 75 * 10 ^ 16
          liquidationThreshold := 80 * 10 ^ 16
          liquidationBonus := 0
          availableLiquidity := 50
          totalSupplied := 100
          totalBorrowed := 50
          priceUSD := 1
          isActive := true
          isFrozen := false }
      else zeroReserveILP
    tokenConfigurations := fun _ => ⟨18, "TOK"⟩
    supportedTokens := [1] }

/-- Result of supplying 100 units of token 1 while `transferFrom` reports
failure. -/
def c1SupplyRun : ILP.State × List ILP.ExtCall :=
  okD (ILP.supplyCollateral envFalse 2 1 100 sC1) (sC1, [])

/-- Result of repaying 20 units of token 1 while `transferFrom` reports
failure. -/
def c1RepayRun : ILP.State × List ILP.ExtCall :=
  okD (ILP.repay envFalse 2 1 20 sC1) (sC1, [])

/-- Result of withdrawing 40 units of token 1 from `sC1`. -/
def c2WithdrawRun : ILP.State × List ILP.ExtCall :=
  okD (ILP.withdrawCollateral envAll 2 1 40 sC1) (sC1, [])

/-- Result of borrowing 10 units of token 1 from `sC1`. -/
def c2BorrowRun : ILP.State × List ILP.ExtCall :=
  okD (ILP.borrow envAll 2 1 10 sC1) (sC1, [])

/-- A placeholder traced call (list-head default). -/
def dummyCallILP : ILP.ExtCall := ⟨.transfer, 0, 0, 0, sC1⟩

/-- Result of supplying 50 more units of token 1 to `sC1`. -/
def c5Run : ILP.State × List ILP.ExtCall :=
  okD (ILP.supplyCollateral envAll 2 1 50 sC1) (sC1, [])

/-- Router state: a (1,2) pool with reserves 100/100, every account holding
10 shares, 10 total shares. -/
def sRL : SR.State :=
  { owner := 0
    self := 9
    pools := fun p => if p = (1, 2) then ⟨1, 2, 100, 100, true⟩ else zeroPool
    userLiquidity := fun _ _ => 10
    totalLiquidity := fun _ => 10 }

/-- Result of removing all 10 shares from `sRL`. -/
def rlRun : SR.State × List SR.ExtCall :=
  okD (SR.removeLiquidity envAll 5 1 2 10 sRL) (sRL, [])

/-- Router state: a (1,2) pool with reserves 1000/1000. -/
def sC6 : SR.State :=
  { owner := 0
    self := 9
    pools := fun p => if p = (1, 2) then ⟨1, 2, 1000, 1000, true⟩ else zeroPool
    userLiquidity := fun _ _ => 0
    totalLiquidity := fun _ => 0 }

/-- A placeholder traced router call, used as the list-indexing default. -/
def dummyCallSR : SR.ExtCall := ⟨.transfer, 0, 0, 0, sC6⟩

/-- Result of swapping 1000 units along the pool-revisiting path
`[1, 2, 1, 2]` on the 1000/1000 pool: all hop amounts are quoted against
the initial reserves, then applied sequentially. -/
def c7Run : SR.State × List SR.ExtCall :=
  okD (SR.swapExactTokensForTokens envAll 5 1000 0 [1, 2, 1, 2] 5 10 0 sC6) (sC6, [])

/-- Router state with no pools, owned by account 0. -/
def sC10 : SR.State :=
  { owner := 0
    self := 9
    pools := fun _ => zeroPool
    userLiquidity := fun _ _ => 0
    totalLiquidity := fun _ => 0 }

/-- Router state: an empty (1,2) pool with zero reserves and no shares. -/
def sAL : SR.State :=
  { owner := 0
    self := 9
    pools := fun p => if p = (1, 2) then ⟨1, 2, 0, 0, true⟩ else zeroPool
    userLiquidity := fun _ _ => 0
    totalLiquidity := fun _ => 0 }

/-- Result of bootstrapping the empty (1,2) pool with amounts 4 and 9. -/
def alRun : SR.State × List SR.ExtCall :=
  okD (SR.addLiquidity envAll 7 1 2 4 9 sAL) (sAL, [])

/-- Lending state: token 1 has 6 decimals and token 2 has 18 decimals,
both active at the same price of 0.5 USD. -/
def sC9 : ILP.State :=
  { owner := 0
    userAccounts := fun _ => zeroUser
    reserves := fun t =>
      if t = 1 ∨ t = 2 then
        { zeroReserveILP with priceUSD := 5 * 10 ^ 17, isActive := true }
      else zeroReserveILP
    tokenConfigurations := fun t => if t = 1 then ⟨6, "USDC"⟩ else ⟨18, "WETH"⟩
    supportedTokens := [1, 2] }

/-- Result of supplying one whole unit of the 6-decimal token 1 to `sC9`. -/
def c9Run : ILP.State × List ILP.ExtCall :=
  okD (ILP.supplyCollateral envAll 3 1 (10 ^ 6) sC9) (sC9, [])

/-- Lending state for the borrow scenario: user 4 supplied 1000 whole units
of the 18-decimal token 1 priced at 1 USD (`totalCollateralUSD =
1000e18`), has no debt, and the reserve holds 1000e18 available units. -/
def s750 : ILP.State :=
  { owner := 0
    userAccounts := fun u =>
      if u = 4 then
        { collateral := fun t => if t = 1 then 1000 * 10 ^ 18 else 0
          debt := fun _ => 0
          totalCollateralUSD := 1000 * 10 ^ 18
          totalDebtUSD := 0 }
      else zeroUser
    reserves := fun t =>
      if t = 1 then
        { ltv := 75 * 10 ^ 16
          liquidationThreshold := 80 * 10 ^ 16
          liquidationBonus := 0
          availableLiquidity := 1000 * 10 ^ 18
          totalSupplied := 1000 * 10 ^ 18
          totalBorrowed := 0
          priceUSD := 10 ^ 18
          isActive := true
          isFrozen := false }
      else zeroReserveILP
    tokenConfigurations := fun _ => ⟨18, "TOK"⟩
    supportedTokens := [1] }

/-- Lending state at the health-factor boundary: user 3 has 2 USD of
collateral (2e18, as 2 whole units of the 1-USD 18-decimal token 1) and
1 USD of debt. -/
def sHF : ILP.State :=
  { owner := 0
    userAccounts := fun u =>
      if u = 3 then
        { collateral := fun t => if t = 1 then 2 * 10 ^ 18 else 0
          debt := fun _ => 0
          totalCollateralUSD := 2 * 10 ^ 18
          totalDebtUSD := 10 ^ 18 }
      else zeroUser
    reserves := fun t =>
      if t = 1 then
        { ltv := 75 * 10 ^ 16
          liquidationThreshold := 80 * 10 ^ 16
          liquidationBonus := 0
          availableLiquidity := 2 * 10 ^ 18
          totalSupplied := 2 * 10 ^ 18
          totalBorrowed := 0
          priceUSD := 10 ^ 18
          isActive := true
          isFrozen := false }
      else zeroReserveILP
    tokenConfigurations := fun _ => ⟨18, "TOK"⟩
    supportedTokens := [1] }

/-- FlowLendingPool state: user 3 holds 10 whole units of the 1-USD
18-decimal token 1 (ltv 8000 = 80%) and owes 4 whole units. -/
def sFHF : FLP.State :=
  { reserves := fun t => if t = 1 then ⟨10 * 10 ^ 18, 0, 8000, 10 ^ 18⟩ else ⟨0, 0, 0, 0⟩
    userCollateral := fun u t => if u = 3 ∧ t = 1 then 10 * 10 ^ 18 else 0
    userDebt := fun u t => if u = 3 ∧ t = 1 then 4 * 10 ^ 18 else 0
    tokens := [1]
    tokenDecimals := fun _ => 18 }

/-- Like `s750` but user 4 already owes 300 USD (`totalDebtUSD = 300e18`). -/
def s600 : ILP.State :=
  { s750 with
    userAccounts := fun u =>
      if u = 4 then
        { collateral := fun t => if t = 1 then 1000 * 10 ^ 18 else 0
          debt := fun _ => 0
          totalCollateralUSD := 1000 * 10 ^ 18
          totalDebtUSD := 300 * 10 ^ 18 }
      else zeroUser }

/-! ### Projection and valuation helper lemmas -/

/-- Peeling one error guard off a successful guarded computation. -/
theorem ite_error_ok {e' a : Type} {c : Prop} [Decidable c] {e : e'}
    {rest : Except e' a} {v : a}
    (h : (if c then Except.error e else rest) = Except.ok v) :
    rest = Except.ok v := by
  by_cases hc : c
  · rw [if_pos hc] at h; exact Except.noConfusion h
  · rwa [if_neg hc] at h

/-- A successful guarded computation's guard did not fire. -/
theorem ite_error_ok_cond {e' a : Type} {c : Prop} [Decidable c] {e : e'}
    {rest : Except e' a} {v : a}
    (h : (if c then Except.error e else rest) = Except.ok v) : ¬ c := by
  intro hc
  rw [if_pos hc] at h
  exact Except.noConfusion h

/-- Updating a user account leaves the reserves mapping unchanged. -/
theorem ilp_updUser_reserves (s : ILP.State) (u : Nat) (f : ILP.UserAccount → ILP.UserAccount) :
    (ILP.updUser s u f).reserves = s.reserves := rfl

/-- Updating a reserve leaves the user accounts mapping unchanged. -/
theorem ilp_updReserve_userAccounts (s : ILP.State) (t : Nat)
    (f : ILP.ReserveData → ILP.ReserveData) :
    (ILP.updReserve s t f).userAccounts = s.userAccounts := rfl

/-- Reading back the account just updated. -/
theorem ilp_updUser_self (s : ILP.State) (u : Nat) (f : ILP.UserAccount → ILP.UserAccount) :
    (ILP.updUser s u f).userAccounts u = f (s.userAccounts u) := by
  simp [ILP.updUser]

/-- Reading back the reserve just updated. -/
theorem ilp_updReserve_self (s : ILP.State) (t : Nat)
    (f : ILP.ReserveData → ILP.ReserveData) :
    (ILP.updReserve s t f).reserves t = f (s.reserves t) := by
  simp [ILP.updReserve]

/-- Reading a reserve other than the one updated. -/
theorem ilp_updReserve_other (s : ILP.State) (t t' : Nat)
    (f : ILP.ReserveData → ILP.ReserveData) (h : t' ≠ t) :
    (ILP.updReserve s t f).reserves t' = s.reserves t' := by
  simp [ILP.updReserve, h]

/-- `_getTokenValueUSD` only reads prices and decimals, so user-account
updates do not change it. -/
theorem ilp_getTokenValueUSD_updUser (s : ILP.State) (u : Nat)
    (f : ILP.UserAccount → ILP.UserAccount) (token amount : Nat) :
    ILP.getTokenValueUSD (ILP.updUser s u f) token amount =
      ILP.getTokenValueUSD s token amount := rfl

/-- `_getTokenValueUSD` is unchanged by a reserve update that preserves the
price. -/
theorem ilp_getTokenValueUSD_updReserve (s : ILP.State) (t : Nat)
    (f : ILP.ReserveData → ILP.ReserveData) (token amount : Nat)
    (hp : ∀ r, (f r).priceUSD = r.priceUSD) :
    ILP.getTokenValueUSD (ILP.updReserve s t f) token amount =
      ILP.getTokenValueUSD s token amount := by
  unfold ILP.getTokenValueUSD ILP.updReserve
  by_cases h : token = t
  · simp [h, hp]
  · simp [h]

/-- The reserves after `supplyS3` are those of `supplyS2`. -/
theorem ilp_supplyS3_reserves (a b c : Nat) (s : ILP.State) :
    (ILP.supplyS3 a b c s).reserves = (ILP.supplyS2 a b c s).reserves := rfl

/-- `withdrawS1` does not touch the reserves. -/
theorem ilp_withdrawS1_reserves (a b c : Nat) (s : ILP.State) :
    (ILP.withdrawS1 a b c s).reserves = s.reserves := rfl

/-- The reserves after `withdrawS3` are those of `withdrawS2`. -/
theorem ilp_withdrawS3_reserves (a b c : Nat) (s : ILP.State) :
    (ILP.withdrawS3 a b c s).reserves = (ILP.withdrawS2 a b c s).reserves := rfl

/-- `borrowS1` does not touch the reserves. -/
theorem ilp_borrowS1_reserves (a b c : Nat) (s : ILP.State) :
    (ILP.borrowS1 a b c s).reserves = s.reserves := rfl

/-- `repayS1` does not touch the reserves. -/
theorem ilp_repayS1_reserves (a b c : Nat) (s : ILP.State) :
    (ILP.repayS1 a b c s).reserves = s.reserves := rfl

/-- `supplyS2` preserves every account's `totalCollateralUSD`. -/
theorem ilp_supplyS2_userTCU (sender token amount u : Nat) (s : ILP.State) :
    ((ILP.supplyS2 sender token amount s).userAccounts u).totalCollateralUSD =
      (s.userAccounts u).totalCollateralUSD := by
  unfold ILP.supplyS2 ILP.updReserve ILP.updUser
  by_cases h : u = sender <;> simp [h]

/-- `supplyS2` preserves token valuation (it touches neither prices nor
decimals). -/
theorem ilp_supplyS2_value (sender token amount token2 amount2 : Nat) (s : ILP.State) :
    ILP.getTokenValueUSD (ILP.supplyS2 sender token amount s) token2 amount2 =
      ILP.getTokenValueUSD s token2 amount2 := by
  unfold ILP.supplyS2
  rw [ilp_getTokenValueUSD_updReserve]
  · rfl
  · intro r
    rfl

/-- `supplyCollateral` credits exactly `_getTokenValueUSD s token amount`
to the supplier's `totalCollateralUSD`. -/
theorem ilp_supplyS3_userTCU (sender token amount : Nat) (s : ILP.State) :
    ((ILP.supplyS3 sender token amount s).userAccounts sender).totalCollateralUSD =
      (s.userAccounts sender).totalCollateralUSD + ILP.getTokenValueUSD s token amount := by
  unfold ILP.supplyS3
  rw [ilp_updUser_self]
  simp [ilp_supplyS2_userTCU, ilp_supplyS2_value]

/-- `withdrawS2` preserves every account's `totalCollateralUSD`. -/
theorem ilp_withdrawS2_userTCU (sender token amount u : Nat) (s : ILP.State) :
    ((ILP.withdrawS2 sender token amount s).userAccounts u).totalCollateralUSD =
      (s.userAccounts u).totalCollateralUSD := by
  unfold ILP.withdrawS2 ILP.withdrawS1 ILP.updReserve ILP.updUser
  by_cases h : u = sender <;> simp [h]

/-- `withdrawS2` preserves token valuation. -/
theorem ilp_withdrawS2_value (sender token amount token2 amount2 : Nat) (s : ILP.State) :
    ILP.getTokenValueUSD (ILP.withdrawS2 sender token amount s) token2 amount2 =
      ILP.getTokenValueUSD s token2 amount2 := by
  unfold ILP.withdrawS2
  rw [ilp_getTokenValueUSD_updReserve]
  · rfl
  · intro r
    rfl

/-! ### Claims -/

/-- C1: the claim states that whenever a token's `transfer`/`transferFrom`
returns `false`, the whole engine operation fails with no state change.
`ImprovedLendingPool` however never checks the returned boolean: with an
environment in which every token call returns `false`, `supplyCollateral`
and `repay` still succeed and commit their state updates.  This theorem
evaluates the code at that failing input. -/
theorem claim_C1 :
    isOkE (ILP.supplyCollateral envFalse 2 1 100 sC1) = true ∧
    (c1SupplyRun.1.userAccounts 2).collateral 1 = 200 ∧
    (c1SupplyRun.1.reserves 1).totalSupplied = 200 ∧
    isOkE (ILP.repay envFalse 2 1 20 sC1) = true ∧
    (c1RepayRun.1.userAccounts 2).debt 1 = 30 ∧
    (c1RepayRun.1.reserves 1).totalBorrowed = 30 := by
  refine ⟨rfl, ?_, ?_, rfl, ?_, ?_⟩ <;> decide

/-- C2 (counterexample): in `ImprovedLendingPool.withdrawCollateral` and
`borrow` the outbound transfer is made BEFORE the bookkeeping updates: the
engine state recorded at the moment of the transfer call still shows the
caller's pre-decrement collateral (100, not 60) and the pre-decrement
available liquidity (50, not 40), refuting the claim as stated. -/
theorem claim_C2_counterexample :
    c2WithdrawRun.2.length = 1 ∧
    ((c2WithdrawRun.2.headD dummyCallILP).stateAt.userAccounts 2).collateral 1 = 100 ∧
    (c2WithdrawRun.1.userAccounts 2).collateral 1 = 60 ∧
    c2BorrowRun.2.length = 1 ∧
    ((c2BorrowRun.2.headD dummyCallILP).stateAt.reserves 1).availableLiquidity = 50 ∧
    (c2BorrowRun.1.reserves 1).availableLiquidity = 40 := by
  refine ⟨?_, ?_, ?_, ?_, ?_, ?_⟩ <;> decide

/-- C2 (amended): in `SwapRouter.removeLiquidity` every bookkeeping
mutation (shares, total shares, both reserves) is finalized before the
outbound transfer calls, so both traced transfers observe exactly the
final state. -/
theorem claim_C2 :
    ∀ (env : TokenEnv) (sender tokenA tokenB liquidity : Nat) (s s' : SR.State)
      (tr : List SR.ExtCall),
      SR.removeLiquidity env sender tokenA tokenB liquidity s = .ok (s', tr) →
      tr.map SR.ExtCall.stateAt = List.replicate tr.length s' := by
  intro env sender tokenA tokenB liquidity s s' tr h
  simp only [SR.removeLiquidity] at h
  repeat' split at h
  all_goals try exact Except.noConfusion h
  rw [Except.ok.injEq, Prod.mk.injEq] at h
  obtain ⟨rfl, rfl⟩ := h
  rfl

/-- C2 (witness): a concrete successful `removeLiquidity` run on which the
amended theorem is instantiated. -/
theorem claim_C2_witness :
    rlRun.2.map SR.ExtCall.stateAt = List.replicate rlRun.2.length rlRun.1 :=
  claim_C2 envAll 5 1 2 10 sRL rlRun.1 rlRun.2 rfl

/-- C10: only the owner may create pools: for every non-owner caller and
every token pair, `createPool` fails with the owner-gate error, even when
the pair is valid and no pool exists yet. -/
theorem claim_C10 :
    ∀ (s : SR.State) (sender tokenA tokenB : Nat),
      sender ≠ s.owner → SR.createPool sender tokenA tokenB s = .error .notOwner := by
  intro s sender tokenA tokenB h
  unfold SR.createPool
  simp [h]

/-- C10 (witness): account 5 is not the owner of `sC10` and cannot create
the (1,2) pool. -/
theorem claim_C10_witness : SR.createPool 5 1 2 sC10 = .error .notOwner :=
  claim_C10 sC10 5 1 2 (by decide)

/-- C6: for every hop with positive input and positive reserves the quoted
output is exactly `floor(amountIn*(1000-3)*reserveOut /
(reserveIn*1000 + amountIn*(1000-3)))`, and on a 1000/1000 pool with the
0.3% fee `getAmountsOut(100, [1,2])` ends in 90. -/
theorem claim_C6 :
    (∀ amountIn reserveIn reserveOut : Nat,
      0 < amountIn → 0 < reserveIn → 0 < reserveOut →
      SR.getAmountOut amountIn reserveIn reserveOut =
        .ok (amountIn * (1000 - 3) * reserveOut /
              (reserveIn * 1000 + amountIn * (1000 - 3)))) ∧
    SR.getAmountsOut sC6 100 [1, 2] = .ok [100, 90] := by
  constructor
  · intro amountIn reserveIn reserveOut h1 h2 h3
    unfold SR.getAmountOut
    rw [if_neg (by omega), if_neg (by rintro (h | h) <;> omega)]
    simp only [SR.FEE_DENOMINATOR, SR.FEE_PERCENT]
  · rfl

/-- C6 (witness): instantiation of the formula at `(100, 1000, 1000)`. -/
theorem claim_C6_witness :
    SR.getAmountOut 100 1000 1000 =
      .ok (100 * (1000 - 3) * 1000 / (1000 * 1000 + 100 * (1000 - 3))) :=
  claim_C6.1 100 1000 1000 (by decide) (by decide) (by decide)

/-- C7 (counterexample to the unamended claim): `swapExactTokensForTokens`
quotes every hop against the pre-swap state, so on the pool-revisiting
path `[1, 2, 1, 2]` the third hop executes on reserves `(1668, 1000)` —
both positive, with positive input 332 — using the stale precomputed
output 248, and the reserve product drops from `1668 * 1000 = 1668000`
to `2000 * 752 = 1504000`.  (Trace entry 2 records the state after the
second hop, entry 3 the state after the third.) -/
theorem claim_C7_counterexample :
    isOkE (SR.swapExactTokensForTokens envAll 5 1000 0 [1, 2, 1, 2] 5 10 0 sC6) = true ∧
    0 < ((c7Run.2.getD 2 dummyCallSR).stateAt.pools (1, 2)).reserveA ∧
    0 < ((c7Run.2.getD 2 dummyCallSR).stateAt.pools (1, 2)).reserveB ∧
    0 < (c7Run.2.getD 2 dummyCallSR).amount ∧
    ((c7Run.2.getD 3 dummyCallSR).stateAt.pools (1, 2)).reserveA *
        ((c7Run.2.getD 3 dummyCallSR).stateAt.pools (1, 2)).reserveB <
      ((c7Run.2.getD 2 dummyCallSR).stateAt.pools (1, 2)).reserveA *
        ((c7Run.2.getD 2 dummyCallSR).stateAt.pools (1, 2)).reserveB := by
  decide

/-- C7 (amended): a hop's reserve product does not decrease whenever the
hop's output was quoted by `getAmountOut` at the reserves the hop
executes on — in particular for every hop of a path that never revisits
a pool; a revisited pool executes against a stale quote and can lose
product. -/
theorem claim_C7 :
    ∀ amountIn reserveIn reserveOut amountOut : Nat,
      0 < reserveIn → 0 < reserveOut →
      SR.getAmountOut amountIn reserveIn reserveOut = .ok amountOut →
      reserveIn * reserveOut ≤ (reserveIn + amountIn) * (reserveOut - amountOut) := by
  intro a rIn rOut out hrIn hrOut h
  unfold SR.getAmountOut at h
  rw [if_neg] at h
  · rw [if_neg (by rintro (h' | h') <;> omega)] at h
    rw [Except.ok.injEq] at h
    simp only [SR.FEE_DENOMINATOR, SR.FEE_PERCENT] at h
    have hD : 0 < rIn * 1000 + a * (1000 - 3) := by positivity
    have h1 : out * (rIn * 1000 + a * (1000 - 3)) ≤ a * (1000 - 3) * rOut := by
      rw [← h]
      exact Nat.div_mul_le_self _ _
    have hout : out ≤ rOut := by
      rw [← h]
      calc a * (1000 - 3) * rOut / (rIn * 1000 + a * (1000 - 3))
          ≤ (rIn * 1000 + a * (1000 - 3)) * rOut / (rIn * 1000 + a * (1000 - 3)) := by
            apply Nat.div_le_div_right
            exact Nat.mul_le_mul_right _ (by omega)
        _ = rOut := Nat.mul_div_cancel_left _ hD
    have key : (rIn + a) * out ≤ a * rOut := by
      apply Nat.le_of_mul_le_mul_right _ hD
      calc (rIn + a) * out * (rIn * 1000 + a * (1000 - 3))
          = (rIn + a) * (out * (rIn * 1000 + a * (1000 - 3))) := by ring
        _ ≤ (rIn + a) * (a * (1000 - 3) * rOut) := Nat.mul_le_mul_left _ h1
        _ ≤ a * rOut * (rIn * 1000 + a * (1000 - 3)) := by nlinarith [Nat.zero_le (a * rIn * rOut)]
    zify [hout]
    have key' : ((rIn : Int) + a) * out ≤ (a : Int) * rOut := by exact_mod_cast key
    nlinarith [key']
  · -- first guard: amountIn = 0 would make the division exact with output 0,
    -- but the source rejects it before reaching the formula
    intro ha
    rw [if_pos ha] at h
    exact Except.noConfusion h

/-- One Newton/Babylonian step never drops below the integer square root:
for `x > 0`, `Nat.sqrt y ≤ (y/x + x)/2`. -/
theorem sr_newton_step_ge (y x : Nat) (hx : 0 < x) : Nat.sqrt y ≤ (y / x + x) / 2 := by
  rcases le_or_lt (2 * Nat.sqrt y) x with h | h
  · have h1 : Nat.sqrt y ≤ x / 2 := by
      rw [Nat.le_div_iff_mul_le (by norm_num)]
      omega
    calc Nat.sqrt y ≤ x / 2 := h1
      _ ≤ (y / x + x) / 2 := Nat.div_le_div_right (Nat.le_add_left x (y / x))
  · have hkey : (2 * Nat.sqrt y - x) * x ≤ y := by
      have hs : Nat.sqrt y * Nat.sqrt y ≤ y := Nat.sqrt_le y
      have hq : (2 * Nat.sqrt y - x) * x ≤ Nat.sqrt y * Nat.sqrt y := by
        zify [le_of_lt h]
        nlinarith [sq_nonneg ((Nat.sqrt y : Int) - x)]
      omega
    have h2 : 2 * Nat.sqrt y - x ≤ y / x := by
      rw [Nat.le_div_iff_mul_le hx]
      exact hkey
    rw [Nat.le_div_iff_mul_le (by norm_num : (0 : Nat) < 2)]
    omega

/-- The Babylonian loop of the source computes `Nat.sqrt` whenever it has
enough fuel, starts at or above the root, and either can still iterate or
already sits at a value whose square is below `y`. -/
theorem sr_sqrtLoop_eq (y : Nat) (hy : 3 < y) :
    ∀ fuel x z, z ≤ fuel → Nat.sqrt y ≤ x → Nat.sqrt y ≤ z →
      (x < z ∨ z * z ≤ y) → SR.sqrtLoop y fuel x z = Nat.sqrt y := by
  have hs2 : 2 ≤ Nat.sqrt y := by
    rw [Nat.le_sqrt]
    omega
  intro fuel
  induction fuel with
  | zero => intro x z hz hx hzs hcase; omega
  | succ fuel ih =>
    intro x z hzf hx hzs hcase
    simp only [SR.sqrtLoop]
    split
    case isTrue h =>
      apply ih
      · omega
      · exact sr_newton_step_ge y x (by omega)
      · exact hx
      · rcases Nat.lt_or_ge ((y / x + x) / 2) x with h' | h'
        · exact Or.inl h'
        · right
          have hxx : x ≤ y / x := by
            have h2 := (Nat.le_div_iff_mul_le (show 0 < 2 by norm_num)).mp h'
            omega
          exact (Nat.le_div_iff_mul_le (by omega)).mp hxx
    case isFalse h =>
      have hzz : z * z ≤ y := by
        rcases hcase with hc | hc
        · omega
        · exact hc
      have hle : z ≤ Nat.sqrt y := Nat.le_sqrt.mpr hzz
      omega

/-- The source's `sqrt` agrees with `Nat.sqrt` on every input. -/
theorem sr_sqrt_eq_natSqrt (y : Nat) : SR.sqrt y = Nat.sqrt y := by
  unfold SR.sqrt
  split
  case isTrue hy =>
    apply sr_sqrtLoop_eq y hy y (y / 2 + 1) y le_rfl
    · have h1 : y < 4 * (y / 2) + 4 := by omega
      have h2 : 4 * (y / 2) + 4 ≤ (y / 2 + 2) * (y / 2 + 2) := by
        nlinarith [Nat.zero_le ((y / 2) * (y / 2))]
      have h3 : Nat.sqrt y < y / 2 + 2 := Nat.sqrt_lt.mpr (by omega)
      omega
    · exact Nat.sqrt_le_self y
    · exact Or.inl (by omega)
  case isFalse hy =>
    split
    case isTrue hy0 =>
      have h1 : 1 ≤ Nat.sqrt y := Nat.le_sqrt.mpr (by omega)
      have h2 : Nat.sqrt y < 2 := Nat.sqrt_lt.mpr (by omega)
      omega
    case isFalse hy0 =>
      have h0 : y = 0 := by omega
      subst h0
      exact Nat.sqrt_zero.symm

/-- C8: bootstrapping a pool with no shares mints exactly the source's
`sqrt(amountA*amountB)`, which is the integer (floor) square root — the
unique `z` with `z*z ≤ amountA*amountB < (z+1)*(z+1)` — and the call fails
with the insufficient-liquidity error exactly when that value is zero. -/
theorem claim_C8 :
    ∀ (env : TokenEnv) (sender tokenA tokenB amountA amountB : Nat) (s : SR.State),
      (s.pools (SR.getPoolId tokenA tokenB)).exists_ = true →
      s.totalLiquidity (SR.getPoolId tokenA tokenB) = 0 →
      env.transferFromOk (s.pools (SR.getPoolId tokenA tokenB)).tokenA sender amountA = true →
      env.transferFromOk (s.pools (SR.getPoolId tokenA tokenB)).tokenB sender amountB = true →
      amountA * amountB < 2 ^ 256 →
      (SR.sqrt (amountA * amountB) = 0 →
        SR.addLiquidity env sender tokenA tokenB amountA amountB s =
          .error .insufficientLiquidity) ∧
      (∀ (s' : SR.State) (tr : List SR.ExtCall),
        SR.addLiquidity env sender tokenA tokenB amountA amountB s = .ok (s', tr) →
        s'.userLiquidity (SR.getPoolId tokenA tokenB) sender =
          s.userLiquidity (SR.getPoolId tokenA tokenB) sender + SR.sqrt (amountA * amountB) ∧
        SR.sqrt (amountA * amountB) * SR.sqrt (amountA * amountB) ≤ amountA * amountB ∧
        amountA * amountB <
          (SR.sqrt (amountA * amountB) + 1) * (SR.sqrt (amountA * amountB) + 1)) ∧
      (SR.sqrt (amountA * amountB) ≠ 0 →
        isOkE (SR.addLiquidity env sender tokenA tokenB amountA amountB s) = true) := by
  intro env sender tokenA tokenB amountA amountB s hex h0 hta htb hov
  have hbounds : SR.sqrt (amountA * amountB) * SR.sqrt (amountA * amountB) ≤ amountA * amountB ∧
      amountA * amountB <
        (SR.sqrt (amountA * amountB) + 1) * (SR.sqrt (amountA * amountB) + 1) := by
    rw [sr_sqrt_eq_natSqrt]
    exact ⟨Nat.sqrt_le _, Nat.lt_succ_sqrt _⟩
  refine ⟨?_, ?_, ?_⟩
  · intro hz
    simp only [SR.addLiquidity, hex, h0, hta, htb]
    simp [hz]
  · intro s' tr h
    simp [SR.addLiquidity, hex, h0, hta, htb] at h
    split at h
    · exact absurd h (by simp)
    · rw [Except.ok.injEq, Prod.mk.injEq] at h
      obtain ⟨h1, h2⟩ := h
      subst h1
      refine ⟨?_, hbounds⟩
      simp
  · intro hnz
    simp [SR.addLiquidity, hex, h0, hta, htb, hnz, isOkE]

/-- C8 (witness): bootstrapping the empty (1,2) pool with 4 and 9 units
mints shares equal to the source's `sqrt 36`, which squares to at most 36
while its successor squares above 36. -/
theorem claim_C8_witness :
    alRun.1.userLiquidity (SR.getPoolId 1 2) 7 =
      sAL.userLiquidity (SR.getPoolId 1 2) 7 + SR.sqrt (4 * 9) ∧
    SR.sqrt (4 * 9) * SR.sqrt (4 * 9) ≤ 4 * 9 ∧
    4 * 9 < (SR.sqrt (4 * 9) + 1) * (SR.sqrt (4 * 9) + 1) :=
  (claim_C8 envAll 7 1 2 4 9 sAL rfl rfl rfl rfl (by norm_num)).2.1 alRun.1 alRun.2 rfl

/-- C9: two assets with equal `priceUSD`, one with 6 and one with 18
decimals, value one whole unit (`10^6` resp. `10^18` base units) at exactly
the same USD amount; and `supplyCollateral` credits exactly that value to
the user's `totalCollateralUSD`. -/
theorem claim_C9 :
    (∀ (s : ILP.State) (t6 t18 : Nat),
      (s.tokenConfigurations t6).decimals = 6 →
      (s.tokenConfigurations t18).decimals = 18 →
      (s.reserves t6).priceUSD = (s.reserves t18).priceUSD →
      ILP.getTokenValueUSD s t6 (10 ^ 6) = ILP.getTokenValueUSD s t18 (10 ^ 18)) ∧
    (∀ (env : TokenEnv) (sender token amount : Nat) (s s' : ILP.State)
      (tr : List ILP.ExtCall),
      ILP.supplyCollateral env sender token amount s = .ok (s', tr) →
      (s'.userAccounts sender).totalCollateralUSD =
        (s.userAccounts sender).totalCollateralUSD +
          ILP.getTokenValueUSD s token amount) := by
  constructor
  · intro s t6 t18 hd6 hd18 hp
    unfold ILP.getTokenValueUSD
    rw [hd6, hd18, hp]
    by_cases hp0 : (s.reserves t18).priceUSD = 0
    · simp [hp0]
    · simp only [hp0]
      norm_num
  · intro env sender token amount s s' tr h
    simp only [ILP.supplyCollateral] at h
    repeat' split at h
    all_goals try exact Except.noConfusion h
    rw [Except.ok.injEq, Prod.mk.injEq] at h
    obtain ⟨h1, h2⟩ := h
    subst h1
    exact ilp_supplyS3_userTCU sender token amount s

/-- C9 (witness): on `sC9`, one whole unit of the 6-decimal token 1 and one
whole unit of the 18-decimal token 2 have the same USD value, and supplying
the former credits exactly that value. -/
theorem claim_C9_witness :
    ILP.getTokenValueUSD sC9 1 (10 ^ 6) = ILP.getTokenValueUSD sC9 2 (10 ^ 18) ∧
    (c9Run.1.userAccounts 3).totalCollateralUSD =
      (sC9.userAccounts 3).totalCollateralUSD + ILP.getTokenValueUSD sC9 1 (10 ^ 6) :=
  ⟨claim_C9.1 sC9 1 2 rfl rfl rfl,
   claim_C9.2 envAll 3 1 (10 ^ 6) sC9 c9Run.1 c9Run.2 rfl⟩

/-- C3 (counterexample): the claim says borrowing fails with the
insufficient-collateral error exactly when `totalDebtUSD + amountUSD >
totalCollateralUSD * LTV`.  On `s600` the user owes 300 USD against 1000
USD of collateral and asks for another 300 USD: `300e18 + 300e18 = 600e18
≤ 750e18`, so the claim predicts success — yet the code fails with the
insufficient-collateral error, because `_calculateAvailableBorrowsUSD`
already subtracts the existing debt before the comparison. -/
theorem claim_C3_counterexample :
    ILP.borrow envAll 4 1 (300 * 10 ^ 18) s600 = .error .insufficientCollateral ∧
    (s600.userAccounts 4).totalDebtUSD + ILP.getTokenValueUSD s600 1 (300 * 10 ^ 18) ≤
      (s600.userAccounts 4).totalCollateralUSD * (75 * 10 ^ 16) / 10 ^ 18 :=
  ⟨rfl, by decide⟩

/-- C3 (amended): under the borrow preconditions (supported token, positive
amount, enough reserve liquidity, non-zero collateral), `borrow` fails with
the insufficient-collateral error iff `totalDebtUSD + amountUSD` exceeds
`_calculateAvailableBorrowsUSD = max(0, totalCollateralUSD*0.75e18/1e18 −
totalDebtUSD)` — i.e. existing debt is subtracted from the LTV-weighted
collateral before being compared against the NEW TOTAL debt.  With zero
debt the claim's scenario holds: 1000 whole units of an 18-decimal 1-USD
asset give `availableBorrowsUSD = 750e18`, a single borrow of up to 750
USD succeeds, and one wei more fails. -/
theorem claim_C3 :
    (∀ (env : TokenEnv) (sender token amount : Nat) (s : ILP.State),
      token ≠ 0 →
      (s.reserves token).isActive = true →
      (s.reserves token).isFrozen = false →
      0 < amount →
      amount ≤ (s.reserves token).availableLiquidity →
      0 < (s.userAccounts sender).totalCollateralUSD →
      (ILP.borrow env sender token amount s = .error .insufficientCollateral ↔
        ILP.calculateAvailableBorrowsUSD s sender <
          (s.userAccounts sender).totalDebtUSD + ILP.getTokenValueUSD s token amount)) ∧
    ILP.calculateAvailableBorrowsUSD s750 4 = 750 * 10 ^ 18 ∧
    isOkE (ILP.borrow envAll 4 1 (750 * 10 ^ 18) s750) = true ∧
    ILP.borrow envAll 4 1 (750 * 10 ^ 18 + 1) s750 = .error .insufficientCollateral := by
  refine ⟨?_, by decide, by decide, rfl⟩
  intro env sender token amount s hnz hact hfroz hpos havail hcol
  simp only [ILP.borrow]
  rw [if_neg hnz, if_neg (by simp [hact]), if_neg (by simp [hfroz]),
    if_neg (by omega), if_neg (by omega), if_neg (by omega), if_neg (by omega)]
  by_cases hc : ILP.calculateAvailableBorrowsUSD s sender <
      (s.userAccounts sender).totalDebtUSD + ILP.getTokenValueUSD s token amount
  · rw [if_pos hc]
    simp [hc]
  · rw [if_neg hc]
    constructor
    · intro hbad
      exfalso
      repeat' split at hbad
      all_goals exact absurd hbad (by simp)
    · intro hcon
      exact absurd hcon hc

/-- C3 (witness): the amended iff instantiated on `s600`: borrowing 300
USD against 1000 USD collateral with 300 USD existing debt hits the
insufficient-collateral error (600e18 > 450e18). -/
theorem claim_C3_witness :
    ILP.borrow envAll 4 1 (200 * 10 ^ 18) s600 = .error .insufficientCollateral :=
  (claim_C3.1 envAll 4 1 (200 * 10 ^ 18) s600 (by decide) rfl rfl (by norm_num)
    (by decide) (by decide)).mpr (by decide)

/-- C4: with the balance preconditions satisfied and current debt positive,
`withdrawCollateral` fails with the liquidation-risk error iff the
post-withdrawal health factor `collateralUSDAfter * 1e18 / totalDebtUSD`
is strictly below `1e18`, and a withdrawal leaving it at exactly `1e18`
succeeds (inclusive boundary).  Part one is `ImprovedLendingPool` (health
factor over the raw collateral USD total); part two is `FlowLendingPool`,
whose health factor weights collateral by the per-reserve liquidation
threshold (`ltv/10000`). -/
theorem claim_C4 :
    (∀ (env : TokenEnv) (sender token amount : Nat) (s : ILP.State),
      token ≠ 0 →
      (s.reserves token).isActive = true →
      (s.reserves token).isFrozen = false →
      0 < amount →
      amount ≤ (s.userAccounts sender).collateral token →
      ILP.getTokenValueUSD s token amount ≤ (s.userAccounts sender).totalCollateralUSD →
      0 < (s.userAccounts sender).totalDebtUSD →
      amount ≤ (s.reserves token).availableLiquidity →
      amount ≤ (s.reserves token).totalSupplied →
      ((ILP.withdrawCollateral env sender token amount s = .error .wouldLiquidate ↔
        ((s.userAccounts sender).totalCollateralUSD - ILP.getTokenValueUSD s token amount) *
            10 ^ 18 / (s.userAccounts sender).totalDebtUSD < 10 ^ 18) ∧
       (10 ^ 18 ≤
          ((s.userAccounts sender).totalCollateralUSD - ILP.getTokenValueUSD s token amount) *
            10 ^ 18 / (s.userAccounts sender).totalDebtUSD →
        isOkE (ILP.withdrawCollateral env sender token amount s) = true))) ∧
    (∀ (env : TokenEnv) (sender token amount : Nat) (s : FLP.State),
      amount ≤ s.userCollateral sender token →
      amount ≤ (s.reserves token).totalSupplied →
      0 < (FLP.getUserAccountData (FLP.decrementCollateral sender token amount s)
            sender).totalDebtUSD →
      ((FLP.withdrawCollateral env sender token amount s = .error .wouldLiquidate ↔
        FLP.liquidationWeightedCollateralUSD (FLP.decrementCollateral sender token amount s)
            sender * 10 ^ 18 /
          (FLP.getUserAccountData (FLP.decrementCollateral sender token amount s)
            sender).totalDebtUSD < 10 ^ 18) ∧
       (env.transferOk token sender amount = true →
        10 ^ 18 ≤
          FLP.liquidationWeightedCollateralUSD (FLP.decrementCollateral sender token amount s)
              sender * 10 ^ 18 /
            (FLP.getUserAccountData (FLP.decrementCollateral sender token amount s)
              sender).totalDebtUSD →
        isOkE (FLP.withdrawCollateral env sender token amount s) = true))) := by
  constructor
  · intro env sender token amount s hnz hact hfroz hpos hcoll hval hdebt havail hsupp
    have hhf : ILP.calculateHealthFactor
        ((s.userAccounts sender).totalCollateralUSD - ILP.getTokenValueUSD s token amount)
        (s.userAccounts sender).totalDebtUSD =
        ((s.userAccounts sender).totalCollateralUSD - ILP.getTokenValueUSD s token amount) *
          10 ^ 18 / (s.userAccounts sender).totalDebtUSD := by
      unfold ILP.calculateHealthFactor
      rw [if_neg (by omega)]
      rfl
    have hT : ILP.HEALTH_FACTOR_LIQUIDATION_THRESHOLD = 10 ^ 18 := rfl
    simp only [ILP.withdrawCollateral]
    rw [if_neg hnz, if_neg (by simp [hact]), if_neg (by simp [hfroz]), if_neg (by omega),
      if_neg (by omega), if_neg (by omega), hhf, hT]
    split
    · next h =>
      obtain ⟨-, h2⟩ := h
      exact ⟨iff_of_true rfl h2, fun hge => absurd hge (by omega)⟩
    · next h =>
      have hnlt : ¬(((s.userAccounts sender).totalCollateralUSD -
          ILP.getTokenValueUSD s token amount) * 10 ^ 18 /
            (s.userAccounts sender).totalDebtUSD < 10 ^ 18) :=
        fun hf => h ⟨hdebt, hf⟩
      rw [if_neg (by rw [ilp_withdrawS1_reserves]; omega),
        if_neg (by rw [ilp_withdrawS1_reserves]; omega),
        if_neg (by rw [ilp_withdrawS2_userTCU, ilp_withdrawS2_value]; omega)]
      exact ⟨iff_of_false (by simp) hnlt, fun _ => rfl⟩
  · intro env sender token amount s hcoll hsupp hdebt
    have hdebt' : 0 <
        (FLP.accountTotals (FLP.decrementCollateral sender token amount s) sender).2.2 := by
      simpa [FLP.getUserAccountData] using hdebt
    have hhf : (FLP.getUserAccountData (FLP.decrementCollateral sender token amount s)
          sender).healthFactor =
        FLP.liquidationWeightedCollateralUSD (FLP.decrementCollateral sender token amount s)
            sender * 10 ^ 18 /
          (FLP.getUserAccountData (FLP.decrementCollateral sender token amount s)
            sender).totalDebtUSD := by
      simp [FLP.getUserAccountData, FLP.liquidationWeightedCollateralUSD, hdebt']
    have hdz : ¬(FLP.getUserAccountData (FLP.decrementCollateral sender token amount s)
        sender).totalDebtUSD = 0 := by omega
    simp only [FLP.withdrawCollateral]
    rw [if_neg (by omega), if_neg (by omega), hhf]
    split
    · next h =>
      have hge : 10 ^ 18 ≤
          FLP.liquidationWeightedCollateralUSD (FLP.decrementCollateral sender token amount s)
              sender * 10 ^ 18 /
            (FLP.getUserAccountData (FLP.decrementCollateral sender token amount s)
              sender).totalDebtUSD := by
        rcases h with h0 | h1
        · exact absurd h0 hdz
        · exact h1
      refine ⟨⟨fun hbad => ?_, fun hcon => absurd hcon (by omega)⟩, fun htr _ => ?_⟩
      · exfalso
        split at hbad
        all_goals exact absurd hbad (by simp)
      · rw [if_pos htr]
        rfl
    · next h =>
      push_neg at h
      exact ⟨iff_of_true rfl h.2, fun _ hge => absurd hge (by omega)⟩

/-- C4 (witness): on `sHF` (2 USD collateral, 1 USD debt) withdrawing 1
whole unit leaves the health factor at exactly `1e18` and succeeds, while
withdrawing 1.1 units drops it to `0.9e18` and fails; on `sFHF` (10 units
at 80% liquidation weight, 4 USD debt) withdrawing 5 units leaves the
weighted health factor at exactly `1e18` and succeeds, while withdrawing 6
units drops it to `0.8e18` and fails. -/
theorem claim_C4_witness :
    isOkE (ILP.withdrawCollateral envAll 3 1 (10 ^ 18) sHF) = true ∧
    ILP.withdrawCollateral envAll 3 1 (10 ^ 18 + 10 ^ 17) sHF = .error .wouldLiquidate ∧
    isOkE (FLP.withdrawCollateral envAll 3 1 (5 * 10 ^ 18) sFHF) = true ∧
    FLP.withdrawCollateral envAll 3 1 (6 * 10 ^ 18) sFHF = .error .wouldLiquidate :=
  ⟨(claim_C4.1 envAll 3 1 (10 ^ 18) sHF (by decide) rfl rfl (by decide) (by decide)
      (by decide) (by decide) (by decide) (by decide)).2 (by decide),
   (claim_C4.1 envAll 3 1 (10 ^ 18 + 10 ^ 17) sHF (by decide) rfl rfl (by decide) (by decide)
      (by decide) (by decide) (by decide) (by decide)).1.mpr (by decide),
   (claim_C4.2 envAll 3 1 (5 * 10 ^ 18) sFHF (by decide) (by decide) (by decide)).2 rfl
      (by decide),
   (claim_C4.2 envAll 3 1 (6 * 10 ^ 18) sFHF (by decide) (by decide) (by decide)).1.mpr
      (by decide)⟩

set_option maxHeartbeats 6400000 in
/-- C5: each reserve of a freshly initialized asset satisfies the
accounting invariant (all totals zero), and every successful
`supplyCollateral`, `withdrawCollateral`, `borrow` and `repay` preserves
`availableLiquidity = totalSupplied - totalBorrowed` and
`totalBorrowed ≤ totalSupplied` for every asset reserve. -/
theorem claim_C5 :
    (∀ (ltv lt lb p : Nat) (ia fz : Bool),
      ILP.ReserveInv
        { ltv := ltv, liquidationThreshold := lt, liquidationBonus := lb,
          availableLiquidity := 0, totalSupplied := 0, totalBorrowed := 0,
          priceUSD := p, isActive := ia, isFrozen := fz }) ∧
    (∀ (env : TokenEnv) (sender token amount : Nat) (s s' : ILP.State)
      (tr : List ILP.ExtCall), ILP.InvAll s →
      ILP.supplyCollateral env sender token amount s = .ok (s', tr) → ILP.InvAll s') ∧
    (∀ (env : TokenEnv) (sender token amount : Nat) (s s' : ILP.State)
      (tr : List ILP.ExtCall), ILP.InvAll s →
      ILP.withdrawCollateral env sender token amount s = .ok (s', tr) → ILP.InvAll s') ∧
    (∀ (env : TokenEnv) (sender token amount : Nat) (s s' : ILP.State)
      (tr : List ILP.ExtCall), ILP.InvAll s →
      ILP.borrow env sender token amount s = .ok (s', tr) → ILP.InvAll s') ∧
    (∀ (env : TokenEnv) (sender token amount : Nat) (s s' : ILP.State)
      (tr : List ILP.ExtCall), ILP.InvAll s →
      ILP.repay env sender token amount s = .ok (s', tr) → ILP.InvAll s') := by
  refine ⟨fun ltv lt lb p ia fz => ⟨Nat.le_refl 0, rfl⟩, ?_, ?_, ?_, ?_⟩
  · intro env sender token amount s s' tr hInv h
    simp only [ILP.supplyCollateral] at h
    repeat' split at h
    all_goals try exact Except.noConfusion h
    rw [Except.ok.injEq, Prod.mk.injEq] at h
    obtain ⟨h1, -⟩ := h
    subst h1
    intro t
    rw [ilp_supplyS3_reserves]
    unfold ILP.supplyS2
    rcases eq_or_ne t token with rfl | ht
    · rw [ilp_updReserve_self, ilp_updUser_reserves]
      obtain ⟨hb, ha⟩ := hInv t
      constructor <;> simp <;> omega
    · rw [ilp_updReserve_other _ _ _ _ ht, ilp_updUser_reserves]
      exact hInv t
  · intro env sender token amount s s' tr hInv h
    simp only [ILP.withdrawCollateral] at h
    repeat' split at h
    all_goals try exact Except.noConfusion h
    rw [Except.ok.injEq, Prod.mk.injEq] at h
    obtain ⟨h1, -⟩ := h
    subst h1
    intro t
    rw [ilp_withdrawS3_reserves]
    unfold ILP.withdrawS2
    simp only [ilp_withdrawS1_reserves] at *
    rcases eq_or_ne t token with rfl | ht
    · rw [ilp_updReserve_self, ilp_withdrawS1_reserves]
      obtain ⟨hb, ha⟩ := hInv t
      constructor <;> simp <;> omega
    · rw [ilp_updReserve_other _ _ _ _ ht]
      exact hInv t
  · intro env sender token amount s s' tr hInv h
    simp only [ILP.borrow] at h
    replace h := ite_error_ok h
    replace h := ite_error_ok h
    replace h := ite_error_ok h
    replace h := ite_error_ok h
    have hal := ite_error_ok_cond h
    repeat replace h := ite_error_ok h
    rw [Except.ok.injEq, Prod.mk.injEq] at h
    obtain ⟨h1, -⟩ := h
    subst h1
    intro t
    unfold ILP.borrowS2
    rcases eq_or_ne t token with rfl | ht
    · rw [ilp_updReserve_self, ilp_borrowS1_reserves]
      obtain ⟨hb, ha⟩ := hInv t
      constructor <;> simp <;> omega
    · rw [ilp_updReserve_other _ _ _ _ ht, ilp_borrowS1_reserves]
      exact hInv t
  · intro env sender token amount s s' tr hInv h
    simp only [ILP.repay] at h
    repeat' split at h
    all_goals try exact Except.noConfusion h
    rw [Except.ok.injEq, Prod.mk.injEq] at h
    obtain ⟨h1, -⟩ := h
    subst h1
    intro t
    unfold ILP.repayS2
    simp only [ilp_repayS1_reserves] at *
    rcases eq_or_ne t token with rfl | ht
    · rw [ilp_updReserve_self, ilp_repayS1_reserves]
      obtain ⟨hb, ha⟩ := hInv t
      constructor <;> simp <;> omega
    · rw [ilp_updReserve_other _ _ _ _ ht]
      exact hInv t

/-- Witness for C5: supplying 50 more units of token 1 to `sC1` preserves
the reserve accounting invariant for token 1. -/
theorem claim_C5_witness :
    ((c5Run.1).reserves 1).totalBorrowed ≤ ((c5Run.1).reserves 1).totalSupplied ∧
    ((c5Run.1).reserves 1).availableLiquidity =
      ((c5Run.1).reserves 1).totalSupplied - ((c5Run.1).reserves 1).totalBorrowed := by
  have hInv : ILP.InvAll sC1 := by
    intro t
    by_cases ht : t = 1 <;>
      simp [sC1, ILP.ReserveInv, ht, zeroReserveILP]
  exact (claim_C5.2.1 envAll 2 1 50 sC1 c5Run.1 c5Run.2 hInv rfl) 1

/-- Witness for C7: the 100-in swap on the 1000/1000 pool outputs 90 and
the reserve product does not decrease. -/
theorem claim_C7_witness :
    SR.getAmountOut 100 1000 1000 = .ok 90 ∧
    1000 * 1000 ≤ (1000 + 100) * (1000 - 90) :=
  ⟨rfl, claim_C7 100 1000 1000 90 (by decide) (by decide) rfl⟩
